import Mathlib

/-!
Shallow embedding of the dynamic external rendering adapter layer of the
`metodos_prova` repository (source: `src/metodos_de_prova/src/App.tsx`),
together with theorems settling the specification claims about it.

The embedded pieces are:
* `MermaidDiagram` — the diagram adapter component: its effect body
  (`mermaidDiagramEffect`), the asynchronous settlement of render jobs
  (`mermaidStep`), and its rendered view (`mermaidDiagramView`);
* `KaTeXRenderer` — the math adapter effect (`kaTeXRendererEffect`);
* `App` — the resource-loading effect (`appMountDoc` / `appCleanupDoc`),
  the readiness flags (`AppState`, `resourceStep`) and the gate
  (`renderPage`);
* the render-attempt identifier scheme (`mkUniqueId`) built from the
  millisecond clock and a pseudo-random base-36 suffix.
-/

/-! ## MermaidDiagram component state

`App.tsx` keeps `renderError : string | null` and `diagramSvg : string | null`
in React state.  `jobs` records, in issue order, the source string of every
`window.mermaid.render` call made so far; the engine's promise for job `i`
settles later (`MermaidEvent.resolve` / `MermaidEvent.reject`). -/

structure MermaidState where
  renderError : Option String
  diagramSvg : Option String
  jobs : List String
deriving DecidableEq

/-- Error message set by the `!chart` branch of the effect. -/
def noDiagramMsg : String := "Nenhum diagrama Mermaid fornecido."

/-- Error message set by the promise `catch` handler. -/
def renderFailMsg : String := "Erro ao renderizar diagrama."

/-- The body of `MermaidDiagram`'s `useEffect`, run whenever `chart` or
`isMermaidLoaded` changes.  `mermaidPresent` models the truthiness of
`window.mermaid`, `refAttached` the truthiness of `mermaidRef.current`.
The first branch clears both state fields and issues a render call
(appends the chart to `jobs`); the second clears both fields; the third
sets the "no diagram" error. -/
def mermaidDiagramEffect (chart : String)
    (isMermaidLoaded mermaidPresent refAttached : Bool)
    (s : MermaidState) : MermaidState :=
  if isMermaidLoaded && mermaidPresent && refAttached && !(chart == "") then
    { renderError := none, diagramSvg := none, jobs := s.jobs ++ [chart] }
  else if !isMermaidLoaded then
    { s with renderError := none, diagramSvg := none }
  else if chart == "" then
    { s with renderError := some noDiagramMsg, diagramSvg := none }
  else
    s

/-- Events acting on a `MermaidDiagram` instance: an effect run with given
props, or the settlement of the promise of a previously issued job.
The `.then` / `.catch` handlers in the source apply their state update
unconditionally — there is no staleness check. -/
inductive MermaidEvent where
  | effect (chart : String) (isMermaidLoaded mermaidPresent refAttached : Bool)
  | resolve (i : Nat)
  | reject (i : Nat)
deriving DecidableEq

/-- One step of the component; `svgOf` is the (deterministic) diagram
engine, mapping a source string to the SVG markup its promise resolves
with. -/
def mermaidStep (svgOf : String → String) (s : MermaidState) :
    MermaidEvent → MermaidState
  | MermaidEvent.effect c l mp ra => mermaidDiagramEffect c l mp ra s
  | MermaidEvent.resolve i =>
      match s.jobs.get? i with
      | some c => { s with diagramSvg := some (svgOf c) }
      | none => s
  | MermaidEvent.reject i =>
      if i < s.jobs.length then { s with renderError := some renderFailMsg }
      else s

/-- Run a list of events from a starting state. -/
def mermaidRun (svgOf : String → String) (s : MermaidState)
    (evs : List MermaidEvent) : MermaidState :=
  evs.foldl (mermaidStep svgOf) s

/-- What the component displays. -/
inductive MermaidView where
  | errorMsg (msg : String)
  | svgView (svg : String)
  | placeholder
deriving DecidableEq

/-- JavaScript truthiness of a `string | null` value. -/
def jsTruthy : Option String → Bool
  | none => false
  | some s => !(s == "")

/-- The JSX of `MermaidDiagram`: the error paragraph if `renderError` is
truthy, else the SVG container if `diagramSvg` is truthy, else the
"Carregando diagrama..." placeholder. -/
def mermaidDiagramView (s : MermaidState) : MermaidView :=
  if jsTruthy s.renderError then MermaidView.errorMsg (s.renderError.getD "")
  else if jsTruthy s.diagramSvg then MermaidView.svgView (s.diagramSvg.getD "")
  else MermaidView.placeholder

/-- A concrete deterministic engine used in counterexample runs. -/
def svgOfDemo (c : String) : String := "<svg>" ++ c ++ "</svg>"

/-- Initial component state: both React states start at `null`, no job
issued yet. -/
def mermaidInit : MermaidState := ⟨none, none, []⟩

/-! ## Theorems about `MermaidDiagram` -/

/-- C6: for every diagram source string, if `isMermaidLoaded` is false the
effect issues no render call (the job list is unchanged), clears both
state fields, and the displayed state is the waiting placeholder. -/
theorem mermaid_engine_not_ready_no_render :
    ∀ (chart : String) (mp ra : Bool) (s : MermaidState),
      (mermaidDiagramEffect chart false mp ra s).jobs = s.jobs ∧
      (mermaidDiagramEffect chart false mp ra s).renderError = none ∧
      (mermaidDiagramEffect chart false mp ra s).diagramSvg = none ∧
      mermaidDiagramView (mermaidDiagramEffect chart false mp ra s) =
        MermaidView.placeholder := by
  intro chart mp ra s
  simp [mermaidDiagramEffect, mermaidDiagramView, jsTruthy]

/-- C10 amended: whenever a new render attempt starts (`chart` non-empty,
engine ready, `window.mermaid` present, ref attached), the effect
synchronously clears the stored SVG and error before the asynchronous
call, appends exactly one new job for the current chart, and immediately
after the effect runs the display is the waiting placeholder.  (This is
only the instantaneous guarantee: while the new attempt is pending, a
superseded earlier job's settlement can repaint the previous attempt's
result — see the counterexample below.) -/
theorem mermaid_new_attempt_clears_previous
    (chart : String) (s : MermaidState) (h : chart ≠ "") :
    (mermaidDiagramEffect chart true true true s).jobs = s.jobs ++ [chart] ∧
    (mermaidDiagramEffect chart true true true s).renderError = none ∧
    (mermaidDiagramEffect chart true true true s).diagramSvg = none ∧
    mermaidDiagramView (mermaidDiagramEffect chart true true true s) =
      MermaidView.placeholder := by
  simp [mermaidDiagramEffect, mermaidDiagramView, jsTruthy, h]

/-- Witness for `mermaid_new_attempt_clears_previous` at a concrete chart
and a state holding a previous error, SVG and job. -/
theorem mermaid_new_attempt_clears_previous_witness :
    "graph TD" ≠ "" ∧
    (mermaidDiagramEffect "graph TD" true true true
        ⟨some "old error", some "<svg>old</svg>", ["old"]⟩).jobs =
      ["old"] ++ ["graph TD"] ∧
    (mermaidDiagramEffect "graph TD" true true true
        ⟨some "old error", some "<svg>old</svg>", ["old"]⟩).renderError = none ∧
    (mermaidDiagramEffect "graph TD" true true true
        ⟨some "old error", some "<svg>old</svg>", ["old"]⟩).diagramSvg = none ∧
    mermaidDiagramView (mermaidDiagramEffect "graph TD" true true true
        ⟨some "old error", some "<svg>old</svg>", ["old"]⟩) =
      MermaidView.placeholder :=
  ⟨by decide,
   mermaid_new_attempt_clears_previous "graph TD"
     ⟨some "old error", some "<svg>old</svg>", ["old"]⟩ (by decide)⟩

/-- C10 counterexample: the placeholder is not guaranteed for the whole
pendency of a new attempt.  After the chart changes from `"graph A"` to
`"graph B"`, job 1 (for `"graph B"`) is pending and the display is the
placeholder — but when the superseded job 0 then resolves (job 1 still
unsettled, its `resolve 1` event never delivered), the unguarded `.then`
handler stores its SVG and the component displays the previous attempt's
diagram while the new attempt is still pending. -/
theorem mermaid_pending_shows_stale_cex :
    mermaidDiagramView
      (mermaidRun svgOfDemo mermaidInit
        [MermaidEvent.effect "graph A" true true true,
         MermaidEvent.effect "graph B" true true true]) =
      MermaidView.placeholder ∧
    mermaidDiagramView
      (mermaidRun svgOfDemo mermaidInit
        [MermaidEvent.effect "graph A" true true true,
         MermaidEvent.effect "graph B" true true true,
         MermaidEvent.resolve 0]) =
      MermaidView.svgView (svgOfDemo "graph A") := by
  constructor <;> rfl

/-- C5 counterexample: with the engine ready and an empty chart string,
the effect sets `renderError` to the "no diagram" message and the
component displays that error — not the waiting placeholder, and not
"no error message". -/
theorem mermaid_idle_empty_chart_cex :
    (mermaidDiagramEffect "" true true true mermaidInit).renderError =
      some noDiagramMsg ∧
    mermaidDiagramView (mermaidDiagramEffect "" true true true mermaidInit) =
      MermaidView.errorMsg noDiagramMsg := by
  constructor <;> rfl

/-- C5 amended: when the engine is not ready the effect clears prior SVG
and error and the waiting placeholder is shown (for any chart); when the
engine is ready but the chart is empty, the effect clears the SVG but sets
the error `noDiagramMsg`, which is displayed instead of the placeholder. -/
theorem mermaid_idle_behavior :
    (∀ (chart : String) (mp ra : Bool) (s : MermaidState),
      (mermaidDiagramEffect chart false mp ra s).renderError = none ∧
      (mermaidDiagramEffect chart false mp ra s).diagramSvg = none ∧
      mermaidDiagramView (mermaidDiagramEffect chart false mp ra s) =
        MermaidView.placeholder) ∧
    (∀ (mp ra : Bool) (s : MermaidState),
      (mermaidDiagramEffect "" true mp ra s).renderError = some noDiagramMsg ∧
      (mermaidDiagramEffect "" true mp ra s).diagramSvg = none ∧
      mermaidDiagramView (mermaidDiagramEffect "" true mp ra s) =
        MermaidView.errorMsg noDiagramMsg) := by
  constructor
  · intro chart mp ra s
    simp [mermaidDiagramEffect, mermaidDiagramView, jsTruthy]
  · intro mp ra s
    simp [mermaidDiagramEffect, mermaidDiagramView, jsTruthy, noDiagramMsg]

/-- C1 (evaluation at the failing schedule): the chart changes from
`"graph A"` to `"graph B"` before the first job settles, and the second
job's promise resolves before the first.  The `.then` handler of the
superseded first job then runs with no staleness guard and overwrites the
state, so the component ends up displaying the SVG of the stale source
`"graph A"`, which differs from the SVG of the latest source. -/
theorem mermaid_stale_job_overwrites :
    mermaidDiagramView
      (mermaidRun svgOfDemo mermaidInit
        [MermaidEvent.effect "graph A" true true true,
         MermaidEvent.effect "graph B" true true true,
         MermaidEvent.resolve 1,
         MermaidEvent.resolve 0]) =
      MermaidView.svgView (svgOfDemo "graph A") ∧
    svgOfDemo "graph A" ≠ svgOfDemo "graph B" := by
  constructor
  · rfl
  · decide

/-! ## App resource readiness flags and the `renderPage` gate

`App` holds three React booleans, all initialised `false`; each is set to
`true` exactly once, by the corresponding script's `onload` callback. -/

structure AppState where
  katexLoaded : Bool
  mermaidLoaded : Bool
  tailwindLoaded : Bool
deriving DecidableEq

/-- Load-completion callbacks: the only writers of the readiness flags. -/
inductive ResourceEvent where
  | katexOnload
  | mermaidOnload
  | tailwindOnload
deriving DecidableEq

/-- The state update performed by each `onload` handler. -/
def resourceStep (s : AppState) : ResourceEvent → AppState
  | ResourceEvent.katexOnload => { s with katexLoaded := true }
  | ResourceEvent.mermaidOnload => { s with mermaidLoaded := true }
  | ResourceEvent.tailwindOnload => { s with tailwindLoaded := true }

/-- What `renderPage` constructs. -/
inductive PageOutput where
  | loadingIndicator
  | contentPages
deriving DecidableEq

/-- `App.renderPage`: returns the loading indicator unless every tracked
resource flag is set; otherwise constructs the content pages. -/
def renderPage (s : AppState) : PageOutput :=
  if !s.katexLoaded || !s.mermaidLoaded || !s.tailwindLoaded then
    PageOutput.loadingIndicator
  else
    PageOutput.contentPages

/-- On a fully-ready state every load callback is a no-op. -/
theorem resourceStep_ready_fixed (e : ResourceEvent) :
    resourceStep ⟨true, true, true⟩ e = ⟨true, true, true⟩ := by
  cases e <;> rfl

/-- C2: the gate constructs the content pages exactly when all three
resource flags are true, and once that holds it keeps holding after any
further sequence of load-completion callbacks (the only writers of the
flags), so the gate never reverts to the loading indicator. -/
theorem readiness_gate_iff_all_and_monotone :
    (∀ s : AppState, renderPage s = PageOutput.contentPages ↔
      (s.katexLoaded = true ∧ s.mermaidLoaded = true ∧
       s.tailwindLoaded = true)) ∧
    (∀ (s : AppState) (evs : List ResourceEvent),
      renderPage s = PageOutput.contentPages →
      renderPage (evs.foldl resourceStep s) = PageOutput.contentPages) := by
  have hiff : ∀ s : AppState, renderPage s = PageOutput.contentPages ↔
      (s.katexLoaded = true ∧ s.mermaidLoaded = true ∧
       s.tailwindLoaded = true) := by
    intro ⟨a, b, c⟩
    cases a <;> cases b <;> cases c <;> simp [renderPage]
  refine ⟨hiff, ?_⟩
  intro s evs h
  have hs : s = ⟨true, true, true⟩ := by
    obtain ⟨h1, h2, h3⟩ := (hiff s).mp h
    cases s
    simp_all
  subst hs
  have hfold : ∀ evs : List ResourceEvent,
      evs.foldl resourceStep ⟨true, true, true⟩ = ⟨true, true, true⟩ := by
    intro evs
    induction evs with
    | nil => rfl
    | cons e tl ih => simpa [List.foldl, resourceStep_ready_fixed e] using ih
  rw [hfold evs]
  exact h

/-- Witness for `readiness_gate_iff_all_and_monotone`: from the all-ready
state, a further mermaid `onload` leaves the gate on the content pages. -/
theorem readiness_gate_iff_all_and_monotone_witness :
    renderPage ⟨true, true, true⟩ = PageOutput.contentPages ∧
    renderPage ([ResourceEvent.mermaidOnload].foldl resourceStep
      ⟨true, true, true⟩) = PageOutput.contentPages :=
  ⟨by decide,
   readiness_gate_iff_all_and_monotone.2 ⟨true, true, true⟩
     [ResourceEvent.mermaidOnload] (by decide)⟩

/-! ## KaTeXRenderer

The effect body of `KaTeXRenderer`: if `window.katex` and the ref are
present it calls `window.katex.render(math, ref.current, ...)` inside
`try`/`catch`; the `catch` logs the error and replaces the element's
content with a styled error span. -/

/-- Result of one run of the `KaTeXRenderer` effect: `outcome` is
`Except.error` only if an exception escapes the component (it never
does), otherwise `Except.ok` carries the target element's content after
the run; `logged` collects the messages passed to `console.error`. -/
structure KatexRenderResult where
  outcome : Except String String
  logged : List String

/-- The error markup written by the `catch` handler. -/
def katexErrorSpan (msg : String) : String :=
  "<span style=\"color: red;\">Erro de renderização matemática: " ++ msg ++
    "</span>"

/-- The `KaTeXRenderer` effect body.  `engine math displayMode` is the
math engine's render call: `Except.ok out` means it wrote `out` into the
target, `Except.error msg` means it raised an exception whose failure
text is `msg`. -/
def kaTeXRendererEffect (engine : String → Bool → Except String String)
    (math : String) (displayMode : Bool)
    (katexPresent refAttached : Bool) (content : String) : KatexRenderResult :=
  if katexPresent && refAttached then
    match engine math displayMode with
    | Except.ok out => ⟨Except.ok out, []⟩
    | Except.error msg => ⟨Except.ok (katexErrorSpan msg), [msg]⟩
  else
    ⟨Except.ok content, []⟩

/-- C3: for every expression, display mode and prior content, the effect
never lets an exception escape (its outcome is always `Except.ok`); and
whenever the engine's render call raises, the effect logs the failure
text and replaces the target's content with the styled error span, which
contains that failure text. -/
theorem katex_error_containment
    (engine : String → Bool → Except String String)
    (math : String) (displayMode : Bool)
    (katexPresent refAttached : Bool) (content : String) :
    (∃ c logs,
      kaTeXRendererEffect engine math displayMode katexPresent refAttached
        content = ⟨Except.ok c, logs⟩) ∧
    (∀ msg, engine math displayMode = Except.error msg →
      kaTeXRendererEffect engine math displayMode true true content =
        ⟨Except.ok (katexErrorSpan msg), [msg]⟩ ∧
      ∃ pre post, katexErrorSpan msg = pre ++ (msg ++ post)) := by
  constructor
  · cases hk : katexPresent && refAttached with
    | false => exact ⟨content, [], by simp [kaTeXRendererEffect, hk]⟩
    | true =>
      cases he : engine math displayMode with
      | ok out => exact ⟨out, [], by simp [kaTeXRendererEffect, hk, he]⟩
      | error msg =>
        exact ⟨katexErrorSpan msg, [msg], by simp [kaTeXRendererEffect, hk, he]⟩
  · intro msg hmsg
    refine ⟨by simp [kaTeXRendererEffect, hmsg], ?_⟩
    refine ⟨"<span style=\"color: red;\">Erro de renderização matemática: ",
      "</span>", ?_⟩
    simp [katexErrorSpan, String.append_assoc]

/-- Witness for `katex_error_containment` at a concrete always-throwing
engine and a concrete malformed expression. -/
theorem katex_error_containment_witness :
    (fun (_ : String) (_ : Bool) => (Except.error "ParseError" :
        Except String String)) "x^" true = Except.error "ParseError" ∧
    kaTeXRendererEffect
      (fun _ _ => Except.error "ParseError") "x^" true true true "prior" =
      ⟨Except.ok (katexErrorSpan "ParseError"), ["ParseError"]⟩ :=
  ⟨rfl,
   ((katex_error_containment (fun _ _ => Except.error "ParseError") "x^" true
      true true "prior").2 "ParseError" rfl).1⟩

/-- The target element's content after one run of the effect with the
engine available and the ref attached (the meaningful-render case). -/
def kaTeXContentAfter (engine : String → Bool → Except String String)
    (math : String) (displayMode : Bool) (content : String) : String :=
  match (kaTeXRendererEffect engine math displayMode true true content).outcome
    with
  | Except.ok out => out
  | Except.error _ => content

/-- The target element's content after `n` successive runs of the effect
with the same `(math, displayMode)` pair. -/
def kaTeXContentAfterN (engine : String → Bool → Except String String)
    (math : String) (displayMode : Bool) : Nat → String → String
  | 0, content => content
  | n + 1, content =>
      kaTeXContentAfter engine math displayMode
        (kaTeXContentAfterN engine math displayMode n content)

/-- The content written by one run does not depend on the prior content. -/
theorem kaTeXContentAfter_const (engine : String → Bool → Except String String)
    (math : String) (displayMode : Bool) (c c' : String) :
    kaTeXContentAfter engine math displayMode c =
      kaTeXContentAfter engine math displayMode c' := by
  cases he : engine math displayMode <;>
    simp [kaTeXContentAfter, kaTeXRendererEffect, he]

/-- C9: rendering the same `(expression, displayMode)` pair `n ≥ 1` times
into the same target leaves the same content as rendering it once. -/
theorem katex_rerender_idempotent
    (engine : String → Bool → Except String String)
    (math : String) (displayMode : Bool) (content : String)
    (n : Nat) (h : 1 ≤ n) :
    kaTeXContentAfterN engine math displayMode n content =
      kaTeXContentAfterN engine math displayMode 1 content := by
  induction n with
  | zero => omega
  | succ m ih =>
    cases Nat.eq_or_lt_of_le h with
    | inl h1 => rw [← h1]
    | inr h1 =>
      have hm : 1 ≤ m := by omega
      show kaTeXContentAfter engine math displayMode
        (kaTeXContentAfterN engine math displayMode m content) = _
      rw [kaTeXContentAfter_const engine math displayMode
        (kaTeXContentAfterN engine math displayMode m content) content]
      rfl

/-- Witness for `katex_rerender_idempotent`: three renders of a concrete
expression through a concrete engine equal one render. -/
theorem katex_rerender_idempotent_witness :
    1 ≤ 3 ∧
    kaTeXContentAfterN (fun m _ => Except.ok ("<mrow>" ++ m ++ "</mrow>"))
      "P(x)" false 3 "initial" =
    kaTeXContentAfterN (fun m _ => Except.ok ("<mrow>" ++ m ++ "</mrow>"))
      "P(x)" false 1 "initial" :=
  ⟨by decide,
   katex_rerender_idempotent (fun m _ => Except.ok ("<mrow>" ++ m ++ "</mrow>"))
     "P(x)" false "initial" 3 (by decide)⟩

/-! ## The App resource-loading effect and its cleanup

The mount effect creates four elements (one `<link>` appended to
`document.head`, three `<script>`s appended to `document.body`) and the
cleanup function removes each one, guarded by a `contains` check.
Elements are modelled as (identity, locator) pairs; `document.createElement`
yields fresh identities `f`, `f+1`, `f+2`, `f+3`. -/

def katexCssUrl : String :=
  "https://cdn.jsdelivr.net/npm/katex@0.16.9/dist/katex.min.css"

def katexJsUrl : String :=
  "https://cdn.jsdelivr.net/npm/katex@0.16.9/dist/katex.min.js"

def mermaidJsUrl : String :=
  "https://cdn.jsdelivr.net/npm/mermaid@10.9.1/dist/mermaid.min.js"

def tailwindJsUrl : String := "https://cdn.tailwindcss.com"

/-- The document: the children of `head` and of `body` that matter here,
each a (node identity, locator) pair. -/
structure Doc where
  head : List (Nat × String)
  body : List (Nat × String)
deriving DecidableEq

/-- The mount half of the `App` `useEffect`: appends the KaTeX stylesheet
to `head` and the KaTeX, Mermaid and Tailwind scripts to `body`. -/
def appMountDoc (f : Nat) (d : Doc) : Doc :=
  { head := d.head ++ [(f, katexCssUrl)],
    body := d.body ++
      [(f + 1, katexJsUrl), (f + 2, mermaidJsUrl), (f + 3, tailwindJsUrl)] }

/-- `if (parent.contains(el)) parent.removeChild(el)`. -/
def removeIfContains (l : List (Nat × String)) (e : Nat × String) :
    List (Nat × String) :=
  if e ∈ l then l.erase e else l

/-- The cleanup function returned by the `App` `useEffect`: detaches the
four elements created by the matching mount, each behind a `contains`
guard. -/
def appCleanupDoc (f : Nat) (d : Doc) : Doc :=
  { head := removeIfContains d.head (f, katexCssUrl),
    body :=
      removeIfContains
        (removeIfContains
          (removeIfContains d.body (f + 1, katexJsUrl))
          (f + 2, mermaidJsUrl))
        (f + 3, tailwindJsUrl) }

/-- A mounted `App` scope: the document plus the readiness flags.  The
`onload` callbacks mutate only the flags, never the document. -/
structure AppScope where
  doc : Doc
  res : AppState

/-- Mounting runs the injection effect with all flags still false. -/
def mountApp (f : Nat) (d : Doc) : AppScope :=
  ⟨appMountDoc f d, ⟨false, false, false⟩⟩

/-- A load-completion callback firing while the scope is mounted. -/
def appScopeStep (s : AppScope) (e : ResourceEvent) : AppScope :=
  ⟨s.doc, resourceStep s.res e⟩

/-- Unmounting runs the cleanup on the current document. -/
def unmountApp (f : Nat) (s : AppScope) : Doc :=
  appCleanupDoc f s.doc

/-- Load callbacks never touch the document. -/
theorem appScopeStep_doc (s : AppScope) (e : ResourceEvent) :
    (appScopeStep s e).doc = s.doc := rfl

/-- The document is unchanged by any sequence of load callbacks. -/
theorem appScope_foldl_doc (s : AppScope) (evs : List ResourceEvent) :
    (evs.foldl appScopeStep s).doc = s.doc := by
  induction evs generalizing s with
  | nil => rfl
  | cons e tl ih => simpa [List.foldl] using ih (appScopeStep s e)

/-- C8: when the `App` scope tears down, every element its mount injected
is detached again, whatever subset of the loads completed in between:
for fresh node identities, unmounting after any sequence of
load-completion events restores the document exactly as it was before the
mount, leaving no injected element behind. -/
theorem app_cleanup_detaches_all
    (f : Nat) (d : Doc)
    (h0 : (f, katexCssUrl) ∉ d.head)
    (h1 : (f + 1, katexJsUrl) ∉ d.body)
    (h2 : (f + 2, mermaidJsUrl) ∉ d.body)
    (h3 : (f + 3, tailwindJsUrl) ∉ d.body) :
    ∀ evs : List ResourceEvent,
      unmountApp f (evs.foldl appScopeStep (mountApp f d)) = d := by
  intro evs
  rw [unmountApp, appScope_foldl_doc]
  show appCleanupDoc f (appMountDoc f d) = d
  obtain ⟨dh, db⟩ := d
  simp only at h0 h1 h2 h3
  have hhead :
      removeIfContains (dh ++ [(f, katexCssUrl)]) (f, katexCssUrl) =
        dh := by
    rw [removeIfContains, if_pos (by simp),
      List.erase_append_right _ h0, List.erase_cons_head, List.append_nil]
  have hb1 :
      removeIfContains
        (db ++ [(f + 1, katexJsUrl), (f + 2, mermaidJsUrl),
          (f + 3, tailwindJsUrl)]) (f + 1, katexJsUrl) =
        db ++ [(f + 2, mermaidJsUrl), (f + 3, tailwindJsUrl)] := by
    rw [removeIfContains, if_pos (by simp),
      List.erase_append_right _ h1, List.erase_cons_head]
  have hb2 :
      removeIfContains
        (db ++ [(f + 2, mermaidJsUrl), (f + 3, tailwindJsUrl)])
        (f + 2, mermaidJsUrl) =
        db ++ [(f + 3, tailwindJsUrl)] := by
    rw [removeIfContains, if_pos (by simp),
      List.erase_append_right _ h2, List.erase_cons_head]
  have hb3 :
      removeIfContains (db ++ [(f + 3, tailwindJsUrl)])
        (f + 3, tailwindJsUrl) = db := by
    rw [removeIfContains, if_pos (by simp),
      List.erase_append_right _ h3, List.erase_cons_head, List.append_nil]
  show Doc.mk
      (removeIfContains (dh ++ [(f, katexCssUrl)]) (f, katexCssUrl))
      (removeIfContains (removeIfContains (removeIfContains
        (db ++ [(f + 1, katexJsUrl), (f + 2, mermaidJsUrl),
          (f + 3, tailwindJsUrl)]) (f + 1, katexJsUrl))
        (f + 2, mermaidJsUrl)) (f + 3, tailwindJsUrl)) =
    Doc.mk dh db
  rw [hhead, hb1, hb2, hb3]

/-- Witness for `app_cleanup_detaches_all`: a concrete pre-existing
document, fresh identities starting at 0, and a run where only the KaTeX
and Mermaid loads complete before teardown. -/
theorem app_cleanup_detaches_all_witness :
    ((0, katexCssUrl) ∉ ([(40, "other.css")] : List (Nat × String))) ∧
    ((1, katexJsUrl) ∉ ([(41, "other.js")] : List (Nat × String))) ∧
    ((2, mermaidJsUrl) ∉ ([(41, "other.js")] : List (Nat × String))) ∧
    ((3, tailwindJsUrl) ∉ ([(41, "other.js")] : List (Nat × String))) ∧
    unmountApp 0
      ([ResourceEvent.katexOnload, ResourceEvent.mermaidOnload].foldl
        appScopeStep
        (mountApp 0 ⟨[(40, "other.css")], [(41, "other.js")]⟩)) =
      ⟨[(40, "other.css")], [(41, "other.js")]⟩ :=
  ⟨by decide, by decide, by decide, by decide,
   app_cleanup_detaches_all 0 ⟨[(40, "other.css")], [(41, "other.js")]⟩
     (by decide) (by decide) (by decide) (by decide)
     [ResourceEvent.katexOnload, ResourceEvent.mermaidOnload]⟩

/-- Number of elements in a child list whose locator is `u`. -/
def countLocator (l : List (Nat × String)) (u : String) : Nat :=
  l.countP (fun e => e.2 == u)

/-- C7 counterexample: the mount effect injects unconditionally — run
against a document that already contains a script element with the KaTeX
locator (its engine therefore already loaded), it appends another one,
leaving two elements with the same locator. -/
theorem app_mount_reinjects_cex :
    countLocator (appMountDoc 0 ⟨[], [(100, katexJsUrl)]⟩).body katexJsUrl
      = 2 := by
  decide

/-- C7 amended: acquisition is not guarded — every mount injects fresh
elements regardless of what is already loaded; duplicate elements are
avoided only because the paired cleanup removes exactly the elements its
own mount injected, so after a mount–unmount cycle the document is empty
again and a re-entering mount leaves exactly one element per locator. -/
theorem app_mount_unmount_reentry (f1 f2 : Nat) :
    appCleanupDoc f1 (appMountDoc f1 ⟨[], []⟩) = ⟨[], []⟩ ∧
    countLocator (appMountDoc f2 ⟨[], []⟩).head katexCssUrl = 1 ∧
    countLocator (appMountDoc f2 ⟨[], []⟩).body katexJsUrl = 1 ∧
    countLocator (appMountDoc f2 ⟨[], []⟩).body mermaidJsUrl = 1 ∧
    countLocator (appMountDoc f2 ⟨[], []⟩).body tailwindJsUrl = 1 := by
  refine ⟨?_, ?_, ?_, ?_, ?_⟩
  · simp [appCleanupDoc, appMountDoc, removeIfContains]
  all_goals
    simp [appMountDoc, countLocator, List.countP_cons, katexCssUrl,
      katexJsUrl, mermaidJsUrl, tailwindJsUrl]

/-! ## Render-attempt identifiers

`MermaidDiagram` builds each job identifier as
`mermaid-chart-${Date.now()}-${Math.random().toString(36).substr(2, 9)}`:
the decimal millisecond clock and a dash-free pseudo-random base-36
suffix, joined by dashes. -/

/-- The decimal digit character for `d`. -/
def decDigitChar (d : Nat) : Char := Char.ofNat (48 + d)

/-- Most-significant-first decimal digits of `n`, prepended to `acc`
(the standard JavaScript integer-to-string algorithm). -/
def natToDecAux (n : Nat) (acc : List Char) : List Char :=
  if h : n = 0 then acc
  else natToDecAux (n / 10) (decDigitChar (n % 10) :: acc)
termination_by n
decreasing_by exact Nat.div_lt_self (Nat.pos_of_ne_zero h) (by decide)

/-- Decimal string of a natural number, as a template literal renders it. -/
def natToDec (n : Nat) : String :=
  if n = 0 then "0" else String.mk (natToDecAux n [])

/-- The `uniqueId` template literal, as a function of the observed clock
value and the observed random base-36 suffix. -/
def mkUniqueId (now : Nat) (rand : String) : String :=
  "mermaid-chart-" ++ natToDec now ++ "-" ++ rand

/-- The identifier of the `k`-th render attempt in a process whose clock
observations are `times` and whose random-suffix observations are
`rands`. -/
def attemptId (times : Nat → Nat) (rands : Nat → String) (k : Nat) :
    String :=
  mkUniqueId (times k) (rands k)

theorem natToDecAux_ne {n : Nat} (h : n ≠ 0) (acc : List Char) :
    natToDecAux n acc =
      natToDecAux (n / 10) (decDigitChar (n % 10) :: acc) := by
  rw [natToDecAux]
  simp [h]

theorem natToDecAux_append (n : Nat) :
    ∀ acc, natToDecAux n acc = natToDecAux n [] ++ acc := by
  induction n using Nat.strong_induction_on with
  | _ n ih =>
    intro acc
    by_cases h : n = 0
    · subst h
      simp [natToDecAux]
    · have hlt : n / 10 < n :=
        Nat.div_lt_self (Nat.pos_of_ne_zero h) (by decide)
      rw [natToDecAux_ne h, natToDecAux_ne h,
        ih (n / 10) hlt (decDigitChar (n % 10) :: acc),
        ih (n / 10) hlt [decDigitChar (n % 10)]]
      simp

/-- Value of a most-significant-first decimal digit list. -/
def decListVal (l : List Char) : Nat :=
  l.foldl (fun a c => 10 * a + (c.toNat - 48)) 0

theorem decListVal_append_digit (l : List Char) (c : Char) :
    decListVal (l ++ [c]) = 10 * decListVal l + (c.toNat - 48) := by
  simp [decListVal, List.foldl_append]

theorem decDigitChar_toNat : ∀ d, d < 10 → (decDigitChar d).toNat = 48 + d := by
  decide

theorem decDigitChar_ne_dash : ∀ d, d < 10 → decDigitChar d ≠ '-' := by
  decide

theorem decListVal_natToDecAux (n : Nat) :
    decListVal (natToDecAux n []) = n := by
  induction n using Nat.strong_induction_on with
  | _ n ih =>
    by_cases h : n = 0
    · subst h
      rw [natToDecAux]
      simp [decListVal]
    · have hlt : n / 10 < n :=
        Nat.div_lt_self (Nat.pos_of_ne_zero h) (by decide)
      rw [natToDecAux_ne h, natToDecAux_append (n / 10)
          [decDigitChar (n % 10)],
        decListVal_append_digit, ih (n / 10) hlt,
        decDigitChar_toNat (n % 10) (Nat.mod_lt n (by decide))]
      omega

theorem dash_not_mem_natToDecAux (n : Nat) :
    ∀ acc, '-' ∉ acc → '-' ∉ natToDecAux n acc := by
  induction n using Nat.strong_induction_on with
  | _ n ih =>
    intro acc hacc
    by_cases h : n = 0
    · subst h
      rw [natToDecAux]
      simpa using hacc
    · have hlt : n / 10 < n :=
        Nat.div_lt_self (Nat.pos_of_ne_zero h) (by decide)
      rw [natToDecAux_ne h]
      refine ih (n / 10) hlt _ ?_
      intro hmem
      rcases List.mem_cons.mp hmem with h1 | h1
      · exact decDigitChar_ne_dash (n % 10) (Nat.mod_lt n (by decide)) h1.symm
      · exact hacc h1

theorem dash_not_mem_natToDec (n : Nat) : '-' ∉ (natToDec n).data := by
  by_cases h : n = 0
  · subst h
    decide
  · rw [natToDec, if_neg h]
    show '-' ∉ natToDecAux n []
    exact dash_not_mem_natToDecAux n [] (by simp)

theorem decListVal_natToDec (n : Nat) : decListVal (natToDec n).data = n := by
  by_cases h : n = 0
  · subst h
    decide
  · rw [natToDec, if_neg h]
    show decListVal (natToDecAux n []) = n
    exact decListVal_natToDecAux n

theorem natToDec_inj {m n : Nat} (h : natToDec m = natToDec n) : m = n := by
  have hm := decListVal_natToDec m
  rw [h, decListVal_natToDec n] at hm
  exact hm.symm

/-- Splitting a character list at a dash is unambiguous when the part
before the dash is dash-free. -/
theorem append_dash_inj :
    ∀ (d1 d2 r1 r2 : List Char), '-' ∉ d1 → '-' ∉ d2 →
      d1 ++ '-' :: r1 = d2 ++ '-' :: r2 → d1 = d2 ∧ r1 = r2 := by
  intro d1
  induction d1 with
  | nil =>
    intro d2 r1 r2 _ h2 heq
    cases d2 with
    | nil => simpa using heq
    | cons c cs =>
      simp only [List.nil_append, List.cons_append, List.cons.injEq] at heq
      exact absurd (heq.1 ▸ List.mem_cons_self c cs) h2
  | cons c cs ih =>
    intro d2 r1 r2 h1 h2 heq
    cases d2 with
    | nil =>
      simp only [List.nil_append, List.cons_append, List.cons.injEq] at heq
      exact absurd (heq.1 ▸ List.mem_cons_self c cs) h1
    | cons c' cs' =>
      simp only [List.cons_append, List.cons.injEq] at heq
      obtain ⟨hc, ht⟩ := heq
      obtain ⟨hd, hr⟩ := ih cs' r1 r2
        (fun hm => h1 (List.mem_cons_of_mem _ hm))
        (fun hm => h2 (List.mem_cons_of_mem _ hm)) ht
      exact ⟨by rw [hc, hd], hr⟩

/-- C4 amended: the identifier scheme is injective in its observations —
two render attempts receive equal identifiers exactly when both their
clock observations and their random suffixes coincide.  Uniqueness is
therefore only as strong as the pseudo-random observations: it holds
whenever the observed pairs differ, and is probabilistic rather than
guaranteed. -/
theorem mkUniqueId_inj (t1 t2 : Nat) (r1 r2 : String) :
    mkUniqueId t1 r1 = mkUniqueId t2 r2 ↔ (t1 = t2 ∧ r1 = r2) := by
  constructor
  · intro h
    have hd := congrArg String.data h
    simp only [mkUniqueId, String.data_append, List.append_assoc] at hd
    have hd' := List.append_cancel_left hd
    have hsingle : ∀ r : List Char, ("-".data : List Char) ++ r = '-' :: r := by
      intro r
      rfl
    rw [hsingle r1.data, hsingle r2.data] at hd'
    obtain ⟨hD, hR⟩ := append_dash_inj _ _ _ _ (dash_not_mem_natToDec t1)
      (dash_not_mem_natToDec t2) hd'
    exact ⟨natToDec_inj (String.ext hD), String.ext hR⟩
  · rintro ⟨rfl, rfl⟩
    rfl

/-- C4 counterexample: two distinct render attempts (attempt 0 and
attempt 1) in an execution where the millisecond clock does not advance
between them and the truncated `Math.random` suffix repeats receive the
same identifier — the scheme does not guarantee that distinct attempts
get unequal identifiers. -/
theorem attemptId_collision_cex :
    attemptId (fun _ => 1721000000000) (fun _ => "k3j9x2m4q") 0 =
      attemptId (fun _ => 1721000000000) (fun _ => "k3j9x2m4q") 1 ∧
    (0 : Nat) ≠ 1 :=
  ⟨rfl, by decide⟩
